import Mathlib

/-
Verification of the development static-file server in src/app/devserver.py.

The script (18 lines) is, at module top level:

  current_dir = os.path.dirname(os.path.abspath(__file__))
  dist_path = os.path.join(current_dir, '..', 'dist')
  os.chdir(dist_path)

  class RequestHandler(SimpleHTTPRequestHandler):
      def end_headers(self):
          self.send_header('Cross-Origin-Opener-Policy', 'same-origin')
          self.send_header('Cross-Origin-Embedder-Policy', 'require-corp')
          SimpleHTTPRequestHandler.end_headers(self)

and under the main guard:

  print("===> Open your browser at http://localhost:8000/")
  test(RequestHandler, HTTPServer, port=8000)

Filesystem paths are embedded as lists of path components (List String).
Request paths are embedded as already-percent-decoded component lists plus
a flag recording whether the raw request path ended with a slash.
-/

/-- Filesystem entry: a regular file with its byte contents, or a
directory carrying its permission bits relevant here (readable = read
permission, searchable = execute/search permission). -/
inductive Entry where
  | file (contents : List Nat)
  | dir (readable : Bool) (searchable : Bool)
deriving DecidableEq

/-- A filesystem: a lookup from absolute path components to entries. -/
def FS : Type := List String → Option Entry

/-- Observable process events, in execution order. -/
inductive Event where
  | chdirEvt (path : List String)
  | printEvt (msg : String)
  | bindEvt (port : Nat)
  | serveEvt
deriving DecidableEq

/-- Terminal state of a run of the script (or of importing the module):
crashed with a nonzero exit code via an unhandled exception, entered the
accept loop of serve_forever, or (for a module import) ran to completion. -/
inductive Outcome where
  | crashed (code : Nat)
  | serving
  | completed
deriving DecidableEq

/-- Result of running (or importing) the script: the event trace, the
terminal outcome, and whether a listening socket of this process is open. -/
structure RunResult where
  events : List Event
  outcome : Outcome
  listenerOpen : Bool
deriving DecidableEq

/-- Normalize a component path the way the operating system resolves it
while walking a path such as dir/../dist, and the way posixpath.normpath
treats an absolute path: drop empty and dot components, and let dotdot pop
the previous component, clamped at the root. -/
def normStep (acc : List String) (c : String) : List String :=
  if c = "" ∨ c = "." then acc
  else if c = ".." then acc.dropLast
  else acc ++ [c]

/-- Normalization as a left fold of normStep over the components. -/
def normalizePath (comps : List String) : List String :=
  comps.foldl normStep []

/-- Source lines 6 and 7: dist_path = os.path.join(current_dir, '..', 'dist').
os.path.join only concatenates; no normalization happens here. -/
def distPathOf (programDir : List String) : List String :=
  programDir ++ ["..", "dist"]

/-- The root directory the process ends up serving from: the chdir target
after the operating system resolves the dotdot component. -/
def resolveRoot (programDir : List String) : List String :=
  normalizePath (distPathOf programDir)

/-- Modelled from the spec: os.chdir from the Python standard library is
not part of src/. POSIX chdir(2) succeeds when the target exists, is a
directory and grants search (execute) permission; it fails with an error
otherwise. Read permission on the directory is not required. The lookup
is on the resolved (normalized) path, as the kernel resolves dotdot
components while walking the path. -/
def chdir (fs : FS) (p : List String) : Except Nat (List String) :=
  match fs (normalizePath p) with
  | some (Entry.dir _ searchable) =>
      if searchable then Except.ok (normalizePath p) else Except.error 13
  | some (Entry.file _) => Except.error 20
  | none => Except.error 2

/-- The fixed startup message printed by source line 17. -/
def startupMsg : String := "===> Open your browser at http://localhost:8000/"

/-- Source lines 1 to 14: the module top level. Importing the module
computes dist_path and calls os.chdir on it; an unhandled exception from
chdir terminates the process with exit code 1. Nothing is printed and no
socket is touched at import time. -/
def moduleTopLevel (programDir : List String) (fs : FS) : RunResult :=
  match chdir fs (distPathOf programDir) with
  | Except.error _ =>
      { events := [Event.chdirEvt (distPathOf programDir)],
        outcome := Outcome.crashed 1,
        listenerOpen := false }
  | Except.ok _ =>
      { events := [Event.chdirEvt (distPathOf programDir)],
        outcome := Outcome.completed,
        listenerOpen := false }

/-- The world the script runs in: the filesystem and whether TCP port 8000
is free to bind. -/
structure World where
  fs : FS
  port8000Free : Bool

/-- Running the script as __main__: the module top level runs first; if it
completes, line 17 prints the startup message and line 18 calls
test(RequestHandler, HTTPServer, port=8000), which constructs the server
(binding the socket) and then enters serve_forever. Modelled from the spec
for the part inside test: binding fails when the port is taken, the
standard library closes the socket on a bind failure before re-raising,
and the unhandled exception exits the process with code 1. -/
def runScript (programDir : List String) (w : World) : RunResult :=
  match (moduleTopLevel programDir w.fs).outcome with
  | Outcome.crashed c =>
      { events := (moduleTopLevel programDir w.fs).events,
        outcome := Outcome.crashed c, listenerOpen := false }
  | _ =>
      if w.port8000Free then
        { events := (moduleTopLevel programDir w.fs).events ++
            [Event.printEvt startupMsg, Event.bindEvt 8000, Event.serveEvt],
          outcome := Outcome.serving,
          listenerOpen := true }
      else
        { events := (moduleTopLevel programDir w.fs).events ++ [Event.printEvt startupMsg],
          outcome := Outcome.crashed 1,
          listenerOpen := false }

/-- The whole program as a function of its command line and environment as
well: the script never reads sys.argv (sys is imported but unused) and
never reads os.environ, so both are ignored. -/
def mainProgram (argv : List String) (env : List (String × String))
    (programDir : List String) (w : World) : RunResult :=
  runScript programDir w

/-- One line of the buffered response header block: a name/value field
line, or the blank line that terminates the header section. -/
inductive HeaderLine where
  | field (name value : String)
  | blank
deriving DecidableEq

/-- Modelled from the spec: send_header of BaseHTTPRequestHandler (standard
library, not in src/) appends one field line to the buffered header block. -/
def send_header (buf : List HeaderLine) (name value : String) : List HeaderLine :=
  buf ++ [HeaderLine.field name value]

/-- Modelled from the spec: end_headers of the base handler appends the
blank line terminating the header section and flushes the block. -/
def base_end_headers (buf : List HeaderLine) : List HeaderLine :=
  buf ++ [HeaderLine.blank]

/-- Source lines 11 to 14: the end_headers override of RequestHandler.
It sends the Cross-Origin-Opener-Policy header, then the
Cross-Origin-Embedder-Policy header, then delegates to the base
end_headers. -/
def RequestHandler.end_headers (buf : List HeaderLine) : List HeaderLine :=
  base_end_headers
    (send_header
      (send_header buf "Cross-Origin-Opener-Policy" "same-origin")
      "Cross-Origin-Embedder-Policy" "require-corp")

/-- An HTTP response as observed on the wire: status code, the full header
block (field lines followed by the terminating blank line), and the body
bytes. -/
structure Response where
  status : Nat
  headerBlock : List HeaderLine
  body : List Nat
deriving DecidableEq

/-- The extension of a file name: the characters after the last dot, or
none when the name has no dot. -/
def extAfterDot : List Char → Option (List Char)
  | [] => none
  | c :: rest =>
      match extAfterDot rest with
      | some e => some e
      | none => if c = '.' then some rest else none

/-- Modelled from the spec: the Content-Type is determined by the file
extension via a fixed extension table (guess_type of
SimpleHTTPRequestHandler, not in src/), with a default of
application/octet-stream for unknown extensions. The table here carries a
representative set of entries. -/
def extensions_map : List (List Char × String) :=
  [(['h','t','m','l'], "text/html"),
   (['h','t','m'], "text/html"),
   (['j','s'], "text/javascript"),
   (['m','j','s'], "text/javascript"),
   (['c','s','s'], "text/css"),
   (['j','s','o','n'], "application/json"),
   (['w','a','s','m'], "application/wasm"),
   (['p','n','g'], "image/png"),
   (['s','v','g'], "image/svg+xml"),
   (['t','x','t'], "text/plain")]

/-- Content-Type for a file name, by its extension. -/
def guess_type (name : String) : String :=
  match extAfterDot name.toList with
  | none => "application/octet-stream"
  | some e =>
      match (extensions_map.find? (fun kv => kv.fst = e)) with
      | some kv => kv.snd
      | none => "application/octet-stream"

/-- The last component of a path, or the empty string for the root. -/
def lastComponent (p : List String) : String := p.getLastD ""

/-- Placeholder values for header fields whose values depend on the clock
or the library version; only the field names matter to the claims. -/
def serverLine : HeaderLine := HeaderLine.field "Server" "SimpleHTTP BaseHTTP Python"

/-- Placeholder Date header line sent with every response. -/
def dateLine : HeaderLine := HeaderLine.field "Date" "now"

/-- Fixed body of the standard library 404 error page (placeholder bytes;
its exact text is not part of any claim). -/
def notFoundBody : List Nat := [78, 111, 116, 32, 70, 111, 117, 110, 100]

/-- Fixed body standing for the generated directory listing page; the spec
declares the listing format an implementation detail, and the filesystem
is embedded as a lookup function, so the listing body is a constant. -/
def listingBody : List Nat := [108, 105, 115, 116, 105, 110, 103]

/-- Modelled from the spec: translate_path of SimpleHTTPRequestHandler
(not in src/) maps the request path onto the serving directory: the path
is normalized (posixpath.normpath), and any remaining empty, dot or dotdot
component is skipped while joining the rest onto the directory, so the
result never escapes the directory. -/
def cleanComps (reqComps : List String) : List String :=
  (normalizePath reqComps).filter
    (fun c => !(c == "") && !(c == ".") && !(c == ".."))

/-- The filesystem path a request path is mapped to: the serving directory
(the current working directory of the process at handler-construction
time) joined with the cleaned request components. -/
def translate_path (directory : List String) (reqComps : List String) : List String :=
  directory ++ cleanComps reqComps

/-- A 200 response streaming the bytes of the file with the given name,
with Content-type from the extension and Content-Length from the size,
finalized through the end_headers override of RequestHandler. -/
def okFileResp (name : String) (bytes : List Nat) : Response :=
  { status := 200,
    headerBlock :=
      RequestHandler.end_headers
        [serverLine, dateLine,
         HeaderLine.field "Content-type" (guess_type name),
         HeaderLine.field "Content-Length" (toString bytes.length),
         HeaderLine.field "Last-Modified" "mtime"],
    body := bytes }

/-- The 404 Not Found response produced by send_error, finalized through
the end_headers override of RequestHandler. -/
def notFoundResp : Response :=
  { status := 404,
    headerBlock :=
      RequestHandler.end_headers
        [serverLine, dateLine,
         HeaderLine.field "Content-Type" "text/html;charset=utf-8",
         HeaderLine.field "Connection" "close",
         HeaderLine.field "Content-Length" (toString notFoundBody.length)],
    body := notFoundBody }

/-- The 301 redirect sent for a directory requested without a trailing
slash, finalized through the end_headers override of RequestHandler. -/
def redirectResp (location : String) : Response :=
  { status := 301,
    headerBlock :=
      RequestHandler.end_headers
        [serverLine, dateLine,
         HeaderLine.field "Location" location,
         HeaderLine.field "Content-Length" "0"],
    body := [] }

/-- The 200 directory-listing response, finalized through the end_headers
override of RequestHandler. -/
def listingResp : Response :=
  { status := 200,
    headerBlock :=
      RequestHandler.end_headers
        [serverLine, dateLine,
         HeaderLine.field "Content-type" "text/html; charset=utf-8",
         HeaderLine.field "Content-Length" (toString listingBody.length)],
    body := listingBody }

/-- Modelled from the spec: the GET path of SimpleHTTPRequestHandler
(send_head, not in src/), specialized to the RequestHandler subclass of
src/ so every branch finalizes its headers through the end_headers
override. The request arrives as decoded path components plus the flag
recording whether the raw path ended with a slash. A directory without
the trailing slash is redirected; with it, index.html then index.htm is
tried, else the listing is generated. A file is streamed, except that a
trailing slash on a file path makes the open fail with 404. A missing
path is 404. -/
def serveGET (fs : FS) (cwd : List String) (reqComps : List String)
    (trailingSlash : Bool) : Response :=
  match fs (translate_path cwd reqComps) with
  | some (Entry.dir _ _) =>
      if trailingSlash = false then
        redirectResp "request-path-with-slash"
      else
        match fs (translate_path cwd reqComps ++ ["index.html"]) with
        | some (Entry.file b) => okFileResp "index.html" b
        | _ =>
            match fs (translate_path cwd reqComps ++ ["index.htm"]) with
            | some (Entry.file b) => okFileResp "index.htm" b
            | _ => listingResp
  | some (Entry.file b) =>
      if trailingSlash then notFoundResp
      else okFileResp (lastComponent (translate_path cwd reqComps)) b
  | none => notFoundResp

/-- The Cross-Origin-Opener-Policy header line injected by RequestHandler. -/
def coopLine : HeaderLine := HeaderLine.field "Cross-Origin-Opener-Policy" "same-origin"

/-- The Cross-Origin-Embedder-Policy header line injected by RequestHandler. -/
def coepLine : HeaderLine := HeaderLine.field "Cross-Origin-Embedder-Policy" "require-corp"

/-- A header-line list is free of the two cross-origin headers and of the
blank terminator. -/
def headerFreeOf (ls : List HeaderLine) : Bool :=
  ls.all (fun l =>
    match l with
    | HeaderLine.blank => false
    | HeaderLine.field n _ =>
        !(n == "Cross-Origin-Opener-Policy") && !(n == "Cross-Origin-Embedder-Policy"))

/-- How many field lines of the block carry the given header name. -/
def countHeader (n : String) (ls : List HeaderLine) : Nat :=
  ls.countP (fun l =>
    match l with
    | HeaderLine.field m _ => m == n
    | HeaderLine.blank => false)

/-- Whether the filesystem has a directory at the given path. -/
def existsAsDir (fs : FS) (p : List String) : Bool :=
  match fs p with
  | some (Entry.dir _ _) => true
  | _ => false

/-- Whether os.chdir would succeed on the given resolved path: a directory
with search permission. -/
def chdirOk (fs : FS) (p : List String) : Bool :=
  match fs p with
  | some (Entry.dir _ s) => s
  | _ => false

/-- A relative path is clean when none of its components is empty, dot or
dotdot; such a path names a concrete file location under a directory. -/
def isCleanPath (ws : List String) : Bool :=
  ws.all (fun c => !(c == "") && !(c == ".") && !(c == ".."))

/-- Index of the first successful-bind event in a trace. -/
def bindIdx (evts : List Event) : Option Nat :=
  evts.findIdx? (fun e => match e with | Event.bindEvt _ => true | _ => false)

/-- Index of the first print-to-stdout event in a trace. -/
def printIdx (evts : List Event) : Option Nat :=
  evts.findIdx? (fun e => match e with | Event.printEvt _ => true | _ => false)

/-- Index of the entry into the accept loop in a trace. -/
def serveIdx (evts : List Event) : Option Nat :=
  evts.findIdx? (fun e => match e with | Event.serveEvt => true | _ => false)

/-- The trace satisfies the readiness-ordering discipline of claim C6:
a bind and a print both occur, and the bind precedes the print. -/
def printedOnlyAfterBind (evts : List Event) : Bool :=
  match bindIdx evts, printIdx evts with
  | some b, some p => b < p
  | _, _ => false

/-- Every bind event of a trace carries port 8000. -/
def portsAre8000 (evts : List Event) : Bool :=
  evts.all (fun e => match e with | Event.bindEvt p => p == 8000 | _ => true)

/-- A trace performs no printing, no binding and no serving: only chdir
side effects. -/
def noServerEffects (evts : List Event) : Bool :=
  evts.all (fun e => match e with | Event.chdirEvt _ => true | _ => false)

/-- Witness filesystem: completely empty. -/
def wfsEmpty : FS := fun _ => none

/-- Witness filesystem: one file outside the serving root only. -/
def wfsOutside : FS :=
  fun p => if p = ["secret"] then some (Entry.file [42]) else none

/-- Witness filesystem: a dist directory holding an index.html file. -/
def wfsDist : FS :=
  fun p =>
    if p = ["dist", "index.html"] then some (Entry.file [104, 105])
    else if p = ["dist"] then some (Entry.dir true true)
    else none

/-- Witness filesystem: the dist directory exists, is searchable, but is
not readable. -/
def wfsUnreadable : FS :=
  fun p => if p = ["dist"] then some (Entry.dir false true) else none

lemma end_headers_eq (buf : List HeaderLine) :
    RequestHandler.end_headers buf = buf ++ [coopLine, coepLine, HeaderLine.blank] := by
  simp [RequestHandler.end_headers, send_header, base_end_headers, coopLine, coepLine]

lemma countHeader_of_free (n : String) (ls : List HeaderLine)
    (h : headerFreeOf ls = true)
    (hn : n = "Cross-Origin-Opener-Policy" ∨ n = "Cross-Origin-Embedder-Policy") :
    countHeader n ls = 0 := by
  rw [countHeader, List.countP_eq_zero]
  intro a ha
  have h2 := (List.all_eq_true.mp h) a ha
  cases a with
  | blank => simp at h2
  | field m v =>
      simp only [Bool.and_eq_true, Bool.not_eq_true', beq_eq_false_iff_ne, ne_eq] at h2
      rcases hn with hn | hn <;> subst hn <;> simp [h2.1, h2.2]

lemma block_props (base : List HeaderLine) (h : headerFreeOf base = true) :
    ∃ pre,
      RequestHandler.end_headers base = pre ++ [coopLine, coepLine, HeaderLine.blank] ∧
      headerFreeOf pre = true ∧
      countHeader "Cross-Origin-Opener-Policy" (RequestHandler.end_headers base) = 1 ∧
      countHeader "Cross-Origin-Embedder-Policy" (RequestHandler.end_headers base) = 1 := by
  refine ⟨base, end_headers_eq base, h, ?_, ?_⟩ <;>
    rw [end_headers_eq, countHeader, List.countP_append, ← countHeader]
  · rw [countHeader_of_free _ _ h (Or.inl rfl)]
    decide
  · rw [countHeader_of_free _ _ h (Or.inr rfl)]
    decide

/-- C1: every response of the server, regardless of status code, carries
Cross-Origin-Opener-Policy: same-origin and
Cross-Origin-Embedder-Policy: require-corp exactly once each, in that
order, after all headers set by the base handler and before the blank
line terminating the header section. -/
theorem serveGET_cross_origin_headers (fs : FS) (cwd reqComps : List String) (ts : Bool) :
    ∃ pre,
      (serveGET fs cwd reqComps ts).headerBlock = pre ++ [coopLine, coepLine, HeaderLine.blank] ∧
      headerFreeOf pre = true ∧
      countHeader "Cross-Origin-Opener-Policy" ((serveGET fs cwd reqComps ts).headerBlock) = 1 ∧
      countHeader "Cross-Origin-Embedder-Policy" ((serveGET fs cwd reqComps ts).headerBlock) = 1 := by
  unfold serveGET
  split
  · split
    · exact block_props _ (by rfl)
    · split
      · exact block_props _ (by rfl)
      · split
        · exact block_props _ (by rfl)
        · exact block_props _ (by rfl)
  · split
    · exact block_props _ (by rfl)
    · exact block_props _ (by rfl)
  · exact block_props _ (by rfl)

lemma prefix_translate (cwd reqComps : List String) :
    cwd <+: translate_path cwd reqComps :=
  ⟨cleanComps reqComps, rfl⟩

lemma wfs_outside_agree : ∀ p, ["dist"] <+: p → wfsOutside p = wfsEmpty p := by
  intro p hp
  obtain ⟨t, ht⟩ := hp
  subst ht
  unfold wfsOutside wfsEmpty
  rw [if_neg]
  intro he
  injection he with h1 h2
  exact absurd h1 (by decide)

/-- C2: the response is unaffected by any part of the filesystem outside
the serving root: two filesystems agreeing on every path under the root
directory produce identical responses, so no request (traversal sequences
included) can ever return file contents from outside the root; moreover
the request-path-to-filesystem-path mapping always resolves under the
root. -/
theorem serveGET_confined (fs1 fs2 : FS) (cwd reqComps : List String) (ts : Bool)
    (h : ∀ p, cwd <+: p → fs1 p = fs2 p) :
    cwd <+: translate_path cwd reqComps ∧
    serveGET fs1 cwd reqComps ts = serveGET fs2 cwd reqComps ts := by
  refine ⟨prefix_translate cwd reqComps, ?_⟩
  have h1 : fs1 (translate_path cwd reqComps) = fs2 (translate_path cwd reqComps) :=
    h _ (prefix_translate cwd reqComps)
  have h2 : fs1 (translate_path cwd reqComps ++ ["index.html"]) =
      fs2 (translate_path cwd reqComps ++ ["index.html"]) :=
    h _ ((prefix_translate cwd reqComps).trans (List.prefix_append _ _))
  have h3 : fs1 (translate_path cwd reqComps ++ ["index.htm"]) =
      fs2 (translate_path cwd reqComps ++ ["index.htm"]) :=
    h _ ((prefix_translate cwd reqComps).trans (List.prefix_append _ _))
  unfold serveGET
  rw [h1, h2, h3]

/-- Witness for C2 at a concrete input: a filesystem with a file outside
the root agrees under the root with the empty filesystem, and the
responses coincide. -/
theorem serveGET_confined_witness :
    (∀ p, ["dist"] <+: p → wfsOutside p = wfsEmpty p) ∧
    (["dist"] <+: translate_path ["dist"] ["..", "secret"] ∧
     serveGET wfsOutside ["dist"] ["..", "secret"] false =
       serveGET wfsEmpty ["dist"] ["..", "secret"] false) :=
  ⟨wfs_outside_agree,
   serveGET_confined wfsOutside wfsEmpty ["dist"] ["..", "secret"] false wfs_outside_agree⟩

lemma foldl_normStep_clean : ∀ (ws acc : List String), isCleanPath ws = true →
    ws.foldl normStep acc = acc ++ ws := by
  intro ws
  induction ws with
  | nil => intro acc h; simp
  | cons c rest ih =>
      intro acc h
      simp only [isCleanPath, List.all_cons, Bool.and_eq_true, Bool.not_eq_true',
        beq_eq_false_iff_ne, ne_eq] at h
      obtain ⟨⟨⟨hc1, hc2⟩, hc3⟩, hrest⟩ := h
      have hstep : normStep acc c = acc ++ [c] := by
        unfold normStep
        rw [if_neg, if_neg hc3]
        intro hor
        rcases hor with hor | hor
        · exact hc1 hor
        · exact hc2 hor
      rw [List.foldl_cons, hstep, ih (acc ++ [c]) (by simpa [isCleanPath] using hrest)]
      simp

lemma cleanComps_of_clean (ws : List String) (h : isCleanPath ws = true) :
    cleanComps ws = ws := by
  unfold cleanComps normalizePath
  rw [foldl_normStep_clean ws [] h, List.nil_append, List.filter_eq_self]
  intro a ha
  exact (List.all_eq_true.mp h) a ha

lemma translate_path_of_clean (cwd ws : List String) (h : isCleanPath ws = true) :
    translate_path cwd ws = cwd ++ ws := by
  rw [translate_path, cleanComps_of_clean ws h]

/-- C4: for a regular file under the root, a GET request for its clean
relative path answers 200 with a body byte-for-byte identical to the file
contents, a Content-type determined by the file extension, and a
Content-Length equal to the body size. -/
theorem serveGET_file_ok (fs : FS) (cwd ws : List String) (bytes : List Nat)
    (hclean : isCleanPath ws = true)
    (hfile : fs (cwd ++ ws) = some (Entry.file bytes)) :
    (serveGET fs cwd ws false).status = 200 ∧
    (serveGET fs cwd ws false).body = bytes ∧
    HeaderLine.field "Content-type" (guess_type (lastComponent (cwd ++ ws))) ∈
      (serveGET fs cwd ws false).headerBlock ∧
    HeaderLine.field "Content-Length" (toString bytes.length) ∈
      (serveGET fs cwd ws false).headerBlock := by
  have htp := translate_path_of_clean cwd ws hclean
  unfold serveGET
  rw [htp, hfile]
  simp [okFileResp, end_headers_eq, htp]

/-- Witness for C4 at a concrete input: the file dist/index.html is
served byte-for-byte with its declared headers. -/
theorem serveGET_file_ok_witness :
    (isCleanPath ["index.html"] = true ∧
     wfsDist (["dist"] ++ ["index.html"]) = some (Entry.file [104, 105])) ∧
    ((serveGET wfsDist ["dist"] ["index.html"] false).status = 200 ∧
     (serveGET wfsDist ["dist"] ["index.html"] false).body = [104, 105] ∧
     HeaderLine.field "Content-type" (guess_type (lastComponent (["dist"] ++ ["index.html"]))) ∈
       (serveGET wfsDist ["dist"] ["index.html"] false).headerBlock ∧
     HeaderLine.field "Content-Length" (toString ([104, 105] : List Nat).length) ∈
       (serveGET wfsDist ["dist"] ["index.html"] false).headerBlock) :=
  ⟨⟨by decide, by decide⟩,
   serveGET_file_ok wfsDist ["dist"] ["index.html"] [104, 105] (by decide) (by decide)⟩

/-- C5: a GET request whose resolved path has no entry in the filesystem
is answered with status 404. -/
theorem serveGET_not_found (fs : FS) (cwd reqComps : List String) (ts : Bool)
    (h : fs (translate_path cwd reqComps) = none) :
    (serveGET fs cwd reqComps ts).status = 404 := by
  unfold serveGET
  rw [h]
  rfl

/-- Witness for C5 at a concrete input: any request against the empty
filesystem is a 404. -/
theorem serveGET_not_found_witness :
    (wfsEmpty (translate_path ["dist"] ["missing.html"]) = none) ∧
    (serveGET wfsEmpty ["dist"] ["missing.html"] false).status = 404 :=
  ⟨rfl, serveGET_not_found wfsEmpty ["dist"] ["missing.html"] false rfl⟩

lemma runScript_cases (pd : List String) (w : World) :
    runScript pd w =
      { events := [Event.chdirEvt (distPathOf pd)],
        outcome := Outcome.crashed 1, listenerOpen := false } ∨
    runScript pd w =
      { events := [Event.chdirEvt (distPathOf pd), Event.printEvt startupMsg,
                   Event.bindEvt 8000, Event.serveEvt],
        outcome := Outcome.serving, listenerOpen := true } ∨
    runScript pd w =
      { events := [Event.chdirEvt (distPathOf pd), Event.printEvt startupMsg],
        outcome := Outcome.crashed 1, listenerOpen := false } := by
  unfold runScript moduleTopLevel chdir
  cases hr : w.fs (normalizePath (distPathOf pd)) with
  | none => left; simp
  | some e =>
      cases e with
      | file b => left; simp
      | dir r s =>
          cases s with
          | false => left; simp
          | true =>
              cases hpf : w.port8000Free with
              | true => right; left; simp
              | false => right; right; simp

/-- C3: when the resolved root directory, computed as the dist sibling of
the program directory, does not exist as a directory, the whole run is the
failed chdir: exit with nonzero status, no print, no bind event, no open
listener, and in particular the process never enters the serve loop from
the current directory. -/
theorem startup_missing_root (pd : List String) (fs : FS) (pf : Bool)
    (h : existsAsDir fs (resolveRoot pd) = false) :
    runScript pd { fs := fs, port8000Free := pf } =
      { events := [Event.chdirEvt (distPathOf pd)],
        outcome := Outcome.crashed 1, listenerOpen := false } := by
  unfold runScript moduleTopLevel chdir
  unfold existsAsDir at h
  cases hr : fs (resolveRoot pd) with
  | none => rw [show (({ fs := fs, port8000Free := pf } : World)).fs = fs from rfl,
      show normalizePath (distPathOf pd) = resolveRoot pd from rfl, hr]
  | some e =>
      rw [hr] at h
      cases e with
      | file b => rw [show (({ fs := fs, port8000Free := pf } : World)).fs = fs from rfl,
          show normalizePath (distPathOf pd) = resolveRoot pd from rfl, hr]
      | dir r s => simp at h

/-- Witness for C3 at a concrete input: with an empty filesystem the run
crashes right after the chdir attempt. -/
theorem startup_missing_root_witness :
    (existsAsDir wfsEmpty (resolveRoot ["app"]) = false) ∧
    runScript ["app"] { fs := wfsEmpty, port8000Free := true } =
      { events := [Event.chdirEvt (distPathOf ["app"])],
        outcome := Outcome.crashed 1, listenerOpen := false } :=
  ⟨by decide, startup_missing_root ["app"] wfsEmpty true (by decide)⟩

/-- C6 counterexample: on a run where the dist directory exists and the
port is free, the startup message is printed before the listener is
bound, so the claimed ordering (print only once bound) is false on the
code. -/
theorem print_before_bind_cex :
    printedOnlyAfterBind
      (runScript ["app"] { fs := wfsDist, port8000Free := true }).events = false := by
  decide

/-- C6 amended: when startup succeeds, the trace is exactly chdir, print,
bind, serve: the listener is bound before the accept loop starts, but the
fixed URL message is printed before the listener is bound, not after. -/
theorem startup_print_precedes_bind (pd : List String) (fs : FS)
    (h : chdirOk fs (resolveRoot pd) = true) :
    (runScript pd { fs := fs, port8000Free := true }).events =
      [Event.chdirEvt (distPathOf pd), Event.printEvt startupMsg,
       Event.bindEvt 8000, Event.serveEvt] ∧
    printIdx (runScript pd { fs := fs, port8000Free := true }).events = some 1 ∧
    bindIdx (runScript pd { fs := fs, port8000Free := true }).events = some 2 ∧
    serveIdx (runScript pd { fs := fs, port8000Free := true }).events = some 3 := by
  unfold chdirOk at h
  have hev : (runScript pd { fs := fs, port8000Free := true }).events =
      [Event.chdirEvt (distPathOf pd), Event.printEvt startupMsg,
       Event.bindEvt 8000, Event.serveEvt] := by
    unfold runScript moduleTopLevel chdir
    dsimp only
    rw [show normalizePath (distPathOf pd) = resolveRoot pd from rfl]
    cases hr : fs (resolveRoot pd) with
    | none => rw [hr] at h; simp at h
    | some e =>
        rw [hr] at h
        cases e with
        | file b => simp at h
        | dir r s =>
            cases s with
            | false => simp at h
            | true => rfl
  refine ⟨hev, ?_, ?_, ?_⟩ <;> rw [hev] <;> rfl

/-- Witness for the amended C6 at a concrete input. -/
theorem startup_print_precedes_bind_witness :
    (chdirOk wfsDist (resolveRoot ["app"]) = true) ∧
    ((runScript ["app"] { fs := wfsDist, port8000Free := true }).events =
      [Event.chdirEvt (distPathOf ["app"]), Event.printEvt startupMsg,
       Event.bindEvt 8000, Event.serveEvt] ∧
     printIdx (runScript ["app"] { fs := wfsDist, port8000Free := true }).events = some 1 ∧
     bindIdx (runScript ["app"] { fs := wfsDist, port8000Free := true }).events = some 2 ∧
     serveIdx (runScript ["app"] { fs := wfsDist, port8000Free := true }).events = some 3) :=
  ⟨by decide, startup_print_precedes_bind ["app"] wfsDist (by decide)⟩

/-- C7 counterexample: a root directory that exists, is searchable, but is
not readable does not make startup fail; chdir only needs search
permission, so the run reaches the serve loop. -/
theorem unreadable_root_still_serves :
    wfsUnreadable (resolveRoot ["app"]) = some (Entry.dir false true) ∧
    (runScript ["app"] { fs := wfsUnreadable, port8000Free := true }).outcome =
      Outcome.serving := by
  decide

/-- C7 amended: the process fails fast at startup (crashing during the
chdir step, before any print or bind) exactly when the root is missing,
is not a directory, or lacks search permission; read permission on the
root is not part of the startup check. -/
theorem fail_fast_iff_not_searchable (pd : List String) (fs : FS) (pf : Bool) :
    ((runScript pd { fs := fs, port8000Free := pf }).events =
        [Event.chdirEvt (distPathOf pd)] ∧
     (runScript pd { fs := fs, port8000Free := pf }).outcome = Outcome.crashed 1)
    ↔ chdirOk fs (resolveRoot pd) = false := by
  unfold chdirOk runScript moduleTopLevel chdir
  dsimp only
  rw [show normalizePath (distPathOf pd) = resolveRoot pd from rfl]
  cases hr : fs (resolveRoot pd) with
  | none => simp
  | some e =>
      cases e with
      | file b => simp
      | dir r s =>
          cases s with
          | false => simp
          | true =>
              cases pf with
              | true => simp
              | false => simp

/-- C8: when the chdir step succeeds but port 8000 is already bound by
another process, the run crashes with a nonzero exit status and no
listening socket of this process is left open (the standard library
closes the socket before re-raising the bind error). -/
theorem port_in_use_fails (pd : List String) (fs : FS)
    (h : chdirOk fs (resolveRoot pd) = true) :
    (runScript pd { fs := fs, port8000Free := false }).outcome = Outcome.crashed 1 ∧
    (runScript pd { fs := fs, port8000Free := false }).listenerOpen = false := by
  unfold chdirOk at h
  unfold runScript moduleTopLevel chdir
  dsimp only
  rw [show normalizePath (distPathOf pd) = resolveRoot pd from rfl]
  cases hr : fs (resolveRoot pd) with
  | none => rw [hr] at h; simp at h
  | some e =>
      rw [hr] at h
      cases e with
      | file b => simp at h
      | dir r s =>
          cases s with
          | false => simp at h
          | true => exact ⟨rfl, rfl⟩

/-- Witness for C8 at a concrete input. -/
theorem port_in_use_fails_witness :
    (chdirOk wfsDist (resolveRoot ["app"]) = true) ∧
    ((runScript ["app"] { fs := wfsDist, port8000Free := false }).outcome =
        Outcome.crashed 1 ∧
     (runScript ["app"] { fs := wfsDist, port8000Free := false }).listenerOpen = false) :=
  ⟨by decide, port_in_use_fails ["app"] wfsDist (by decide)⟩

/-- C9: the program consumes neither command-line arguments nor
environment variables: runs differing only in argv or environment are
identical, every bind is on port 8000, and the serving root (the chdir
target opening the trace) depends only on the program location. -/
theorem independent_of_argv_env (argv argv2 : List String)
    (env env2 : List (String × String)) (pd : List String) (w : World) :
    mainProgram argv env pd w = mainProgram argv2 env2 pd w ∧
    portsAre8000 (mainProgram argv env pd w).events = true ∧
    (mainProgram argv env pd w).events.head? = some (Event.chdirEvt (distPathOf pd)) := by
  refine ⟨rfl, ?_, ?_⟩ <;>
    rcases runScript_cases pd w with h | h | h <;>
    · show _ = _
      unfold mainProgram
      rw [h]
      rfl

/-- C10: the root resolution and the chdir run at module import time,
outside the main guard: importing the module performs exactly the chdir
side effect (no print, no bind), crashes the importing process when the
dist sibling is not a directory, and the directory served for a request
is the cwd of the process at that moment (the translate step is a
function of the cwd argument, not of a stored path: different cwds give
different resolved paths). -/
theorem import_performs_chdir (pd : List String) (fs fs2 : FS)
    (cwd1 cwd2 reqComps : List String)
    (hdist : existsAsDir fs (resolveRoot pd) = false)
    (hneq : cwd1 ≠ cwd2) :
    (moduleTopLevel pd fs2).events = [Event.chdirEvt (distPathOf pd)] ∧
    noServerEffects (moduleTopLevel pd fs2).events = true ∧
    (moduleTopLevel pd fs).outcome = Outcome.crashed 1 ∧
    translate_path cwd1 reqComps = cwd1 ++ cleanComps reqComps ∧
    translate_path cwd1 reqComps ≠ translate_path cwd2 reqComps := by
  have hev : (moduleTopLevel pd fs2).events = [Event.chdirEvt (distPathOf pd)] := by
    unfold moduleTopLevel
    cases chdir fs2 (distPathOf pd) <;> rfl
  have hout : (moduleTopLevel pd fs).outcome = Outcome.crashed 1 := by
    unfold existsAsDir at hdist
    unfold moduleTopLevel chdir
    rw [show normalizePath (distPathOf pd) = resolveRoot pd from rfl]
    cases hr : fs (resolveRoot pd) with
    | none => rfl
    | some e =>
        rw [hr] at hdist
        cases e with
        | file b => rfl
        | dir r s => simp at hdist
  refine ⟨hev, ?_, hout, rfl, ?_⟩
  · rw [hev]; rfl
  · intro he
    exact hneq (List.append_cancel_right
      (he.trans (rfl : translate_path cwd2 reqComps = cwd2 ++ cleanComps reqComps)))

/-- Witness for C10 at concrete inputs. -/
theorem import_performs_chdir_witness :
    (existsAsDir wfsEmpty (resolveRoot ["app"]) = false ∧ (["a"] : List String) ≠ ["b"]) ∧
    ((moduleTopLevel ["app"] wfsDist).events = [Event.chdirEvt (distPathOf ["app"])] ∧
     noServerEffects (moduleTopLevel ["app"] wfsDist).events = true ∧
     (moduleTopLevel ["app"] wfsEmpty).outcome = Outcome.crashed 1 ∧
     translate_path ["a"] ["x"] = ["a"] ++ cleanComps ["x"] ∧
     translate_path ["a"] ["x"] ≠ translate_path ["b"] ["x"]) :=
  ⟨⟨by decide, by decide⟩,
   import_performs_chdir ["app"] wfsEmpty wfsDist ["a"] ["b"] ["x"] (by decide) (by decide)⟩
